import Mathlib

/-!
Verification of the authentication and session subsystem of the
3DPrintManagement web application (src/app.py), against its
natural-language specification.

The embedding follows src/app.py. JSON claim values are modelled by
`JsonVal` with Python truthiness; the Flask session and the SQLite
user table are modelled as explicit state (`AppState`). The Identity
Store operations `User.get` and `User.create` live in user.py, which
is not part of the provided sources; they are modelled from the spec
(a persistent mapping from external subject identifier to local user
record, backed here by a list).
-/

/-- A JSON scalar value as it appears in the userinfo claims document. -/
inductive JsonVal
  | bool (b : Bool)
  | str (s : String)
  | num (n : Int)
  | null
  deriving DecidableEq

/-- Python truthiness of a JSON value: False, the empty string, zero and
null are falsy, everything else is truthy. -/
def truthy : JsonVal → Bool
  | .bool b => b
  | .str s => !(s == "")
  | .num n => !(n == 0)
  | .null => false

/-- Python truthiness of `dict.get(key)`: an absent key yields None,
which is falsy. -/
def truthyOpt : Option JsonVal → Bool
  | none => false
  | some v => truthy v

/-- Local user record, fields named as in the `User` constructor call at
src/app.py lines 132-134. -/
structure UserRec where
  id_ : String
  name : String
  email : String
  profile_pic : String
  deriving DecidableEq

/-- Modelled from the spec: `User.get` of user.py (absent from src/) is the
Identity Store lookup `getUser(external_id) -> User | absent`, a pure
lookup with no side effects on the persistent mapping from external
subject identifier to local user record. -/
def User.get (store : List UserRec) (user_id : String) : Option UserRec :=
  store.find? (fun u => u.id_ == user_id)

/-- Modelled from the spec: `User.create` of user.py (absent from src/)
persists a new User record into the Identity Store. -/
def User.create (store : List UserRec) (id_ name email profile_pic : String) :
    List UserRec :=
  store ++ [⟨id_, name, email, profile_pic⟩]

/-- The userinfo claims document, the five claims src/app.py reads.
`email_verified` is kept as a raw JSON value because the code tests it
with Python truthiness; the other four are read as strings. An absent
key is `none`. -/
structure Userinfo where
  email_verified : Option JsonVal
  sub : Option String
  email : Option String
  picture : Option String
  name : Option String
  deriving DecidableEq

/-- Server-side state visible to the login flow: the Identity Store and
the session credential (the external id the session cookie references). -/
structure AppState where
  store : List UserRec
  session : Option String
  deriving DecidableEq

/-- Outcome of the /login/callback handler: an exception raised during
token exchange, an exception raised fetching userinfo, the 400
"User email not available or not verified by Google." response, an
unhandled KeyError escaping from claim extraction, or the success
redirect to the index page. -/
inductive FlowOutcome
  | tokenError
  | userinfoError
  | unverified400
  | keyError (k : String)
  | redirectIndex
  deriving DecidableEq

/-- Claim extraction at src/app.py lines 123-126: four dictionary
accesses in source order sub, email, picture, name; the first absent key
raises KeyError. -/
def extractClaims (info : Userinfo) :
    Except String (String × String × String × String) :=
  match info.sub with
  | none => .error "sub"
  | some unique_id =>
    match info.email with
    | none => .error "email"
    | some users_email =>
      match info.picture with
      | none => .error "picture"
      | some picture =>
        match info.name with
        | none => .error "name"
        | some users_name => .ok (unique_id, users_email, picture, users_name)

/-- The /login/callback handler (src/app.py lines 85-144). The token
exchange and the userinfo fetch are network steps that either succeed or
raise; their results are passed in. On a truthy `email_verified` the
four claims are extracted, the user is created if absent
(lines 136-138), and the session is established by `login_user`
(line 141); otherwise the handler returns the 400 response at line 128. -/
def callback (st : AppState) (tokenRes : Except Unit Unit)
    (infoRes : Except Unit Userinfo) : FlowOutcome × AppState :=
  match tokenRes with
  | .error _ => (.tokenError, st)
  | .ok _ =>
    match infoRes with
    | .error _ => (.userinfoError, st)
    | .ok info =>
      if truthyOpt info.email_verified then
        match extractClaims info with
        | .error k => (.keyError k, st)
        | .ok (unique_id, users_email, picture, users_name) =>
          (.redirectIndex,
            { store :=
                if (User.get st.store unique_id).isNone then
                  User.create st.store unique_id users_name users_email picture
                else
                  st.store,
              session := some unique_id })
      else
        (.unverified400, st)

/-- The provisioning step at src/app.py lines 136-138: create the record
only when `User.get` finds none. Modelled from the spec: the returned
record follows the `provisionIfAbsent` contract (the stored record for
that external id after the call). -/
def provisionIfAbsent (store : List UserRec) (ident : UserRec) :
    List UserRec × UserRec :=
  match User.get store ident.id_ with
  | some u => (store, u)
  | none =>
    (User.create store ident.id_ ident.name ident.email ident.profile_pic,
      ident)

/-- The authorization request URI built by
`WebApplicationClient.prepare_request_uri`: the discovered endpoint plus
its query parameters. -/
structure AuthRedirect where
  endpoint : String
  params : List (String × String)
  deriving DecidableEq

/-- oauthlib `WebApplicationClient.prepare_request_uri`: appends
`response_type=code`, the client id the client was constructed with, the
given redirect uri and the space-joined scope list to the endpoint. -/
def prepare_request_uri (endpoint client_id redirect_uri : String)
    (scope : List String) : AuthRedirect :=
  { endpoint := endpoint,
    params :=
      [("response_type", "code"),
       ("client_id", client_id),
       ("redirect_uri", redirect_uri),
       ("scope", String.intercalate " " scope)] }

/-- The /login handler (src/app.py lines 69-82): reads
`authorization_endpoint` from the discovery document (a KeyError if the
field is absent) and builds the redirect with
`redirect_uri = request.base_url + "/callback"` and
`scope = [openid, email, profile]`. The client id is the configured
`GOOGLE_CLIENT_ID` the module-level client was constructed with
(line 53). -/
def login (doc : String → Option String) (client_id base_url : String) :
    Except String AuthRedirect :=
  match doc "authorization_endpoint" with
  | none => .error "authorization_endpoint"
  | some authorization_endpoint =>
    .ok (prepare_request_uri authorization_endpoint client_id
      (base_url ++ "/callback") ["openid", "email", "profile"])

/-- Session state as resolved for a request: Anonymous or Authenticated
with a user record. -/
inductive SessionState
  | anonymous
  | authenticated (u : UserRec)
  deriving DecidableEq

/-- An HTTP response: body and status code. -/
structure Response where
  body : String
  code : Nat
  deriving DecidableEq

/-- The unauthorized handler registered at src/app.py lines 40-42: the
fixed 403 response returned whenever a protected route is hit without an
authenticated session. -/
def unauthorized : Response :=
  ⟨"You must be logged in to access this content.", 403⟩

/-- A redirect response to the named route, as produced by
`redirect(url_for(...))`. -/
def redirectTo (target : String) : Response :=
  ⟨target, 302⟩

/-- flask_login `login_required` combined with the registered
unauthorized handler: on an Anonymous session it answers with the fixed
403 response without running the wrapped view; on an Authenticated
session it runs the view. The view is a state transformer over a call
counter so that invocation is observable. -/
def login_required (view : Nat → Response × Nat) (s : SessionState)
    (calls : Nat) : Response × Nat :=
  match s with
  | .anonymous => (unauthorized, calls)
  | .authenticated _ => view calls

/-- The protected /form route (src/app.py lines 154-157): the wrapped
view redirects to index and, in this model, bumps the call counter. -/
def req_form (s : SessionState) (calls : Nat) : Response × Nat :=
  login_required (fun c => (redirectTo "index", c + 1)) s calls

/-- The flask_login user loader (src/app.py lines 56-58): looks the
session credential up in the Identity Store. -/
def load_user (store : List UserRec) (user_id : String) : Option UserRec :=
  User.get store user_id

/-- Session resolution for an incoming request: no credential resolves
to Anonymous; a credential is passed to `load_user`, and a credential
the store cannot resolve degrades to Anonymous (flask_login treats a
None loader result as an anonymous user). -/
def resolveSession (store : List UserRec) (credential : Option String) :
    SessionState :=
  match credential with
  | none => .anonymous
  | some uid =>
    match load_user store uid with
    | none => .anonymous
    | some u => .authenticated u

/-- The /logout route (src/app.py lines 147-151). It is wrapped in
`login_required` (line 148), so an Anonymous session receives the fixed
403 response and `logout_user` never runs; an Authenticated session is
logged out (session becomes Anonymous) and redirected to index. -/
def logout (s : SessionState) : Response × SessionState :=
  match s with
  | .anonymous => (unauthorized, .anonymous)
  | .authenticated _ => (redirectTo "index", .anonymous)

/-- Startup configuration read from the environment. `client_id` and
`client_secret` keep the Optional shape `os.getenv` gives them. -/
structure Config where
  client_id : Option String
  client_secret : Option String
  secret_key : String
  deriving DecidableEq

/-- Configuration at module import (src/app.py lines 24-32):
`GOOGLE_CLIENT_ID` and `GOOGLE_CLIENT_SECRET` are `os.getenv` results,
None when absent; `app.secret_key` is
`os.environ.get("SECRET_KEY") or os.urandom(24)`, so an absent or empty
value falls back to 24 random bytes. Startup never aborts on missing
configuration: the function is total. -/
def startupConfig (env : String → Option String) (urandom24 : String) :
    Config :=
  { client_id := env "GOOGLE_CLIENT_ID",
    client_secret := env "GOOGLE_CLIENT_SECRET",
    secret_key :=
      match env "SECRET_KEY" with
      | some s => if s == "" then urandom24 else s
      | none => urandom24 }

/-- Boolean infix test on lists: the needle is a prefix of some suffix
of the haystack. -/
def listInfix (needle : List Char) : List Char → Bool
  | [] => needle.isPrefixOf []
  | h :: t => needle.isPrefixOf (h :: t) || listInfix needle t

/-- Python substring containment `needle in haystack` for strings. -/
def pyIn (needle haystack : String) : Bool :=
  listInfix needle.data haystack.data

/-- src/app.py lines 244-252: True when the file name contains neither
".stl" nor ".zip" as a substring. Passing None (an absent form field)
raises a TypeError, modelled as the error case. -/
def check_file_type_not_allowed (file_name : Option String) :
    Except Unit Bool :=
  match file_name with
  | none => .error ()
  | some f =>
    if !(pyIn ".stl" f) then
      if !(pyIn ".zip" f) then .ok true
      else .ok false
    else .ok false

/-- src/app.py lines 229-241: the form has a print job unless the "link"
field is the empty string and the "files" field is empty or of a
disallowed type. `results.get` of an absent key yields None, which
compares unequal to the empty string. -/
def request_has_printjob (link files : Option String) : Except Unit Bool :=
  if link == some "" then
    if files == some "" then .ok false
    else
      match check_file_type_not_allowed files with
      | .error e => .error e
      | .ok true => .ok false
      | .ok false => .ok true
  else .ok true

/-! Theorems settling the claims. -/

/-- Claim C1, counterexample: with `email_verified` being the string
"true" (not the boolean true), the callback does not fail with the 400
unverified outcome; it proceeds to extract claims, provision the user
and establish a session, because src/app.py line 122 tests the claim
with Python truthiness and a nonempty string is truthy. -/
theorem c1_counterexample :
    callback ⟨[], none⟩ (.ok ()) (.ok ⟨some (.str "true"), some "u1",
        some "a@b.com", some "http://x/p.png", some "Ada"⟩)
      = (.redirectIndex,
          ⟨[⟨"u1", "Ada", "a@b.com", "http://x/p.png"⟩], some "u1"⟩) ∧
    FlowOutcome.redirectIndex ≠ FlowOutcome.unverified400 :=
  ⟨by decide, by decide⟩

/-- Claim C1, amended: the callback returns the 400 unverified outcome
exactly when the `email_verified` claim is Python-falsy (absent, false,
empty string, zero or null), and in that case the state is unchanged; a
truthy value of any type, including the string "true", lets the flow
proceed. -/
theorem c1_amended (st : AppState) (info : Userinfo) :
    ((callback st (.ok ()) (.ok info)).1 = FlowOutcome.unverified400 ↔
      truthyOpt info.email_verified = false) ∧
    (truthyOpt info.email_verified = false →
      callback st (.ok ()) (.ok info) = (FlowOutcome.unverified400, st)) := by
  cases hv : truthyOpt info.email_verified with
  | false =>
    refine ⟨?_, fun _ => ?_⟩ <;> simp [callback, hv]
  | true =>
    refine ⟨?_, fun h => absurd h (by decide)⟩
    simp only [callback, hv, if_true]
    cases hex : extractClaims info with
    | error k => simp [hex]
    | ok v =>
      obtain ⟨a, b, c, d⟩ := v
      simp [hex]

/-- Claim C1, witness for the amended theorem at a boolean-false
`email_verified` claim. -/
theorem c1_amended_witness :
    callback ⟨[], none⟩ (.ok ()) (.ok ⟨some (.bool false), some "u1",
        some "a@b.com", some "p", some "Ada"⟩)
      = (FlowOutcome.unverified400, ⟨[], none⟩) :=
  (c1_amended ⟨[], none⟩ _).2 rfl

/-- Claim C2: every run of the callback that does not end in the success
redirect — token-exchange failure, userinfo-fetch failure, the 400
unverified outcome, or a KeyError from claim extraction — leaves the
Identity Store and the session unchanged (no partial login). -/
theorem c2_no_partial_login (st : AppState) (tr : Except Unit Unit)
    (ir : Except Unit Userinfo)
    (h : (callback st tr ir).1 ≠ FlowOutcome.redirectIndex) :
    (callback st tr ir).2 = st := by
  cases tr with
  | error e => rfl
  | ok t =>
    cases ir with
    | error e => rfl
    | ok info =>
      cases hv : truthyOpt info.email_verified with
      | false => simp [callback, hv]
      | true =>
        cases hex : extractClaims info with
        | error k => simp [callback, hv, hex]
        | ok v =>
          obtain ⟨a, b, c, d⟩ := v
          exact absurd (by simp [callback, hv, hex]) h

/-- Claim C2, witness: the callback invoked with `email_verified` false
fails and mutates neither the store nor the session. -/
theorem c2_witness :
    (callback ⟨[], none⟩ (.ok ()) (.ok ⟨some (.bool false), some "u1",
        some "a@b.com", some "p", some "Ada"⟩)).1 ≠ FlowOutcome.redirectIndex ∧
    (callback ⟨[], none⟩ (.ok ()) (.ok ⟨some (.bool false), some "u1",
        some "a@b.com", some "p", some "Ada"⟩)).2 = ⟨[], none⟩ :=
  ⟨by decide, c2_no_partial_login _ _ _ (by decide)⟩

/-- Claim C3: provisioning the same external id twice — the second time
with possibly different name, email and picture claims — stores exactly
one record for that id, and the second call returns the store unchanged
together with the record created by the first call (first-write-wins,
no refresh from newer claims). -/
theorem c3_provision_first_write_wins (store : List UserRec) (i j : UserRec)
    (hid : j.id_ = i.id_) (h0 : User.get store i.id_ = none) :
    (provisionIfAbsent store i).2 = i ∧
    provisionIfAbsent (provisionIfAbsent store i).1 j
      = ((provisionIfAbsent store i).1, i) ∧
    ((provisionIfAbsent (provisionIfAbsent store i).1 j).1).countP
      (fun u => u.id_ == i.id_) = 1 := by
  have h1 : provisionIfAbsent store i = (store ++ [i], i) := by
    unfold provisionIfAbsent
    rw [h0]
    rfl
  have h2 : User.get (store ++ [i]) j.id_ = some i := by
    unfold User.get at h0 ⊢
    rw [hid, List.find?_append, h0]
    simp
  have h3 : provisionIfAbsent (store ++ [i]) j = (store ++ [i], i) := by
    unfold provisionIfAbsent
    rw [h2]
  have hz : store.countP (fun u => u.id_ == i.id_) = 0 := by
    rw [List.countP_eq_zero]
    exact List.find?_eq_none.mp h0
  refine ⟨by rw [h1], by rw [h1, h3], ?_⟩
  rw [h1, h3]
  simp [List.countP_append, hz, List.countP_cons]

/-- Claim C3, witness: a second login of sub "u1" carrying the name
"Ada Lovelace" leaves the stored record "Ada" (spec scenario B). -/
theorem c3_witness :
    (provisionIfAbsent [] ⟨"u1", "Ada", "a@b.com", "p"⟩).2
      = ⟨"u1", "Ada", "a@b.com", "p"⟩ ∧
    provisionIfAbsent (provisionIfAbsent [] ⟨"u1", "Ada", "a@b.com", "p"⟩).1
        ⟨"u1", "Ada Lovelace", "a@b.com", "q"⟩
      = ((provisionIfAbsent [] ⟨"u1", "Ada", "a@b.com", "p"⟩).1,
          ⟨"u1", "Ada", "a@b.com", "p"⟩) ∧
    ((provisionIfAbsent (provisionIfAbsent [] ⟨"u1", "Ada", "a@b.com", "p"⟩).1
        ⟨"u1", "Ada Lovelace", "a@b.com", "q"⟩).1).countP
      (fun u => u.id_ == "u1") = 1 :=
  c3_provision_first_write_wins [] ⟨"u1", "Ada", "a@b.com", "p"⟩
    ⟨"u1", "Ada Lovelace", "a@b.com", "q"⟩ rfl rfl

/-- Claim C4, counterexample: on a verified claims document missing
`sub`, the callback ends in an unhandled KeyError, not a handled
MalformedClaimsError outcome (no such error kind exists in the code);
and a document whose four claims are all the empty string is accepted
and login proceeds, so absent-or-empty claims are not rejected. -/
theorem c4_counterexample :
    callback ⟨[], none⟩ (.ok ()) (.ok ⟨some (.bool true), none,
        some "a@b.com", some "p", some "Ada"⟩)
      = (.keyError "sub", ⟨[], none⟩) ∧
    (callback ⟨[], none⟩ (.ok ()) (.ok ⟨some (.bool true), some "",
        some "", some "", some ""⟩)).1 = FlowOutcome.redirectIndex :=
  ⟨by decide, by decide⟩

/-- Claim C4, amended: on a claims document that passes the
email-verification check, any absent required claim makes the callback
raise an unhandled KeyError naming the first missing key in source
order sub, email, picture, name, with state unchanged — not a distinct
handled MalformedClaimsError — while a document in which all four
claims are present, even as empty strings, is accepted: the callback
succeeds and establishes a session for that sub. -/
theorem c4_amended (st : AppState) (info : Userinfo)
    (hv : truthyOpt info.email_verified = true) :
    (∀ k, extractClaims info = .error k →
      callback st (.ok ()) (.ok info) = (FlowOutcome.keyError k, st)) ∧
    ((info.sub = none ∨ info.email = none ∨ info.picture = none ∨
        info.name = none) → ∃ k, extractClaims info = .error k) ∧
    (info.sub = none → extractClaims info = .error "sub") ∧
    (∀ s, info.sub = some s → info.email = none →
      extractClaims info = .error "email") ∧
    (∀ s e, info.sub = some s → info.email = some e →
      info.picture = none → extractClaims info = .error "picture") ∧
    (∀ s e p, info.sub = some s → info.email = some e →
      info.picture = some p → info.name = none →
      extractClaims info = .error "name") ∧
    (∀ s e p n, info.sub = some s → info.email = some e →
      info.picture = some p → info.name = some n →
      (callback st (.ok ()) (.ok info)).1 = FlowOutcome.redirectIndex ∧
      (callback st (.ok ()) (.ok info)).2.session = some s) := by
  refine ⟨?_, ?_, ?_, ?_, ?_, ?_, ?_⟩
  · intro k hex
    simp [callback, hv, hex]
  · intro h
    cases hs : info.sub with
    | none => exact ⟨"sub", by unfold extractClaims; rw [hs]⟩
    | some s =>
      cases he : info.email with
      | none => exact ⟨"email", by unfold extractClaims; rw [hs, he]⟩
      | some e =>
        cases hp : info.picture with
        | none => exact ⟨"picture", by unfold extractClaims; rw [hs, he, hp]⟩
        | some p =>
          cases hn : info.name with
          | none =>
            exact ⟨"name", by unfold extractClaims; rw [hs, he, hp, hn]⟩
          | some n =>
            rcases h with h | h | h | h <;> simp_all
  · intro hsub
    unfold extractClaims; rw [hsub]
  · intro s hs he
    unfold extractClaims; rw [hs, he]
  · intro s e hs he hp
    unfold extractClaims; rw [hs, he, hp]
  · intro s e p hs he hp hn
    unfold extractClaims; rw [hs, he, hp, hn]
  · intro s e p n hs he hp hn
    have hex : extractClaims info = .ok (s, e, p, n) := by
      unfold extractClaims; rw [hs, he, hp, hn]
    constructor <;> simp [callback, hv, hex]

/-- Claim C4, witness for the amended theorem: a verified document with
`sub` present but no `email` claim ends in the KeyError outcome naming
"email", the first missing key. -/
theorem c4_amended_witness :
    callback ⟨[], none⟩ (.ok ()) (.ok ⟨some (.bool true), some "u1",
        none, some "p", some "Ada"⟩)
      = (FlowOutcome.keyError "email", ⟨[], none⟩) :=
  (c4_amended ⟨[], none⟩ _ (by decide)).1 "email" rfl

/-- Claim C5: for every discovery document carrying an authorization
endpoint, the /login handler redirects to that endpoint with exactly
the query parameters response_type=code, the configured client id,
redirect_uri equal to the callback URL derived from the request base
URL, and the scope "openid email profile". -/
theorem c5_login_redirect (doc : String → Option String)
    (client_id base_url ep : String)
    (h : doc "authorization_endpoint" = some ep) :
    login doc client_id base_url = .ok
      { endpoint := ep,
        params := [("response_type", "code"), ("client_id", client_id),
                   ("redirect_uri", base_url ++ "/callback"),
                   ("scope", "openid email profile")] } := by
  unfold login
  rw [h]
  rfl

/-- Claim C5, witness at a concrete discovery document, client id and
base URL. -/
theorem c5_witness :
    login (fun k => if k == "authorization_endpoint"
        then some "https://accounts.google.com/o/oauth2/v2/auth" else none)
      "client-123" "https://example.com/login" = .ok
      { endpoint := "https://accounts.google.com/o/oauth2/v2/auth",
        params := [("response_type", "code"), ("client_id", "client-123"),
                   ("redirect_uri", "https://example.com/login/callback"),
                   ("scope", "openid email profile")] } :=
  c5_login_redirect _ _ _ _ rfl

/-- Claim C6: on an Anonymous session the login_required gate returns
the fixed 403 response and leaves the call counter untouched for every
wrapped view — the protected operation is never invoked — and the
/form route behaves as that gate instance; the rejection is the fixed
"You must be logged in to access this content." body with code 403. -/
theorem c6_gate_short_circuits (view : Nat → Response × Nat) (calls : Nat) :
    login_required view SessionState.anonymous calls = (unauthorized, calls) ∧
    req_form SessionState.anonymous calls = (unauthorized, calls) ∧
    unauthorized = ⟨"You must be logged in to access this content.", 403⟩ :=
  ⟨rfl, rfl, rfl⟩

/-- Claim C7: a session credential whose external id the Identity Store
cannot resolve degrades to the Anonymous state; resolution is a total
function, so it never errors the request. -/
theorem c7_stale_credential_resolves_anonymous (store : List UserRec)
    (uid : String) (h : User.get store uid = none) :
    resolveSession store (some uid) = SessionState.anonymous := by
  simp [resolveSession, load_user, h]

/-- Claim C7, witness: a credential for "u1" against a reset (empty)
store resolves to Anonymous. -/
theorem c7_witness :
    resolveSession [] (some "u1") = SessionState.anonymous :=
  c7_stale_credential_resolves_anonymous [] "u1" rfl

/-- Claim C8, counterexample: invoking /logout with an Anonymous session
is not a successful no-op — the login_required wrapper at src/app.py
line 148 rejects it with the fixed 403 response, which differs from the
success redirect. -/
theorem c8_counterexample :
    logout SessionState.anonymous = (unauthorized, SessionState.anonymous) ∧
    unauthorized.code = 403 ∧
    unauthorized ≠ redirectTo "index" :=
  ⟨rfl, rfl, by decide⟩

/-- Claim C8, amended: after any /logout request the session is
Anonymous; an Authenticated session is logged out and redirected to
index, while an already-Anonymous session is rejected by the
login_required gate with the fixed 403 response instead of succeeding
as a no-op. -/
theorem c8_amended (s : SessionState) :
    (logout s).2 = SessionState.anonymous ∧
    (∀ u, s = SessionState.authenticated u →
      (logout s).1 = redirectTo "index") ∧
    (s = SessionState.anonymous → (logout s).1 = unauthorized) := by
  cases s with
  | anonymous =>
    exact ⟨rfl, fun u h => SessionState.noConfusion h, fun _ => rfl⟩
  | authenticated u =>
    exact ⟨rfl, fun _ _ => rfl, fun h => SessionState.noConfusion h⟩

/-- Claim C8, witness for the amended theorem on an Authenticated
session. -/
theorem c8_amended_witness :
    (logout (SessionState.authenticated ⟨"u1", "Ada", "a@b.com", "p"⟩)).2
      = SessionState.anonymous ∧
    (logout (SessionState.authenticated ⟨"u1", "Ada", "a@b.com", "p"⟩)).1
      = redirectTo "index" :=
  ⟨(c8_amended _).1, (c8_amended _).2.1 _ rfl⟩

/-- Claim C9, counterexample: with an empty environment, startup
completes and yields a configuration with None client credentials and a
generated fallback secret key — it does not fail fast. -/
theorem c9_counterexample :
    startupConfig (fun _ => none) "generated-random-24-bytes" =
      { client_id := none, client_secret := none,
        secret_key := "generated-random-24-bytes" } :=
  rfl

/-- Claim C9, amended: the configuration read at startup passes the
possibly-absent client id and client secret through unchanged, and an
absent or empty SECRET_KEY silently falls back to the generated random
key; startup is total and never aborts on missing configuration. -/
theorem c9_amended (env : String → Option String) (urandom24 : String) :
    (startupConfig env urandom24).client_id = env "GOOGLE_CLIENT_ID" ∧
    (startupConfig env urandom24).client_secret = env "GOOGLE_CLIENT_SECRET" ∧
    (env "SECRET_KEY" = none →
      (startupConfig env urandom24).secret_key = urandom24) ∧
    (env "SECRET_KEY" = some "" →
      (startupConfig env urandom24).secret_key = urandom24) := by
  refine ⟨rfl, rfl, ?_, ?_⟩ <;> intro h <;> simp [startupConfig, h]

/-- Claim C9, witness for the amended theorem at the empty
environment. -/
theorem c9_amended_witness :
    (startupConfig (fun _ => none) "k24").secret_key = "k24" :=
  (c9_amended (fun _ => none) "k24").2.2.1 rfl

/-- Claim C10: request_has_printjob on a present "files" field returns
False exactly when "link" is the empty string and the file name is
empty or contains neither ".stl" nor ".zip" as a substring; a form with
the "link" key absent (None, not the empty string) always counts as
having a print; and a name like "part.stl.exe" is accepted because the
check is substring containment, not a suffix check. -/
theorem c10_request_has_printjob (link : Option String) (f : String) :
    (request_has_printjob link (some f) = Except.ok false ↔
      (link = some "" ∧
        (f = "" ∨ (pyIn ".stl" f = false ∧ pyIn ".zip" f = false)))) ∧
    (∀ files, request_has_printjob none files = Except.ok true) ∧
    request_has_printjob (some "") (some "part.stl.exe") = Except.ok true := by
  refine ⟨?_, fun files => rfl, rfl⟩
  by_cases hl : link = some ""
  · subst hl
    by_cases hf : f = ""
    · subst hf
      simp [request_has_printjob]
    · cases hstl : pyIn ".stl" f <;> cases hzip : pyIn ".zip" f <;>
        simp [request_has_printjob, check_file_type_not_allowed, hstl, hzip, hf]
  · simp [request_has_printjob, hl]

/-- Claim C10, witness: "part.stl.exe" passes the file-type check. -/
theorem c10_witness :
    request_has_printjob (some "") (some "part.stl.exe") = Except.ok true :=
  (c10_request_has_printjob (some "") "part.stl.exe").2.2
